import Mathlib

/-!
Shallow embedding of the NaN-boxed value representation of the `boa` engine
(`core/engine/src/value/inner/nan_boxed.rs`, `nan_boxed/raw.rs`,
`nan_boxed/singlenan.rs`).

Modelling conventions:
* Machine words are `Nat`s; an `f64` is represented by its 64-bit IEEE-754
  pattern (a `Nat` below `2^64`); the 6-byte payload of a `Value` is a `Nat`
  below `2^48` read little-endian (the little-endian `repr(C)` layout puts the
  `data` bytes first and the `Header` in the top two bytes of the word).
* Rust functions whose only failure mode is a fatal `assert!`/`panic!` or an
  `unreachable_unchecked` precondition violation are modelled with `Option`:
  `none` is the abort/undefined branch.
* `f64::is_nan` / `f64::is_sign_positive` are the IEEE-754 bit-level tests on
  the stored pattern (exponent all ones with nonzero mantissa; sign bit clear).
-/

namespace Boa

/-- Constant `SIGN_MASK` from `raw.rs`: all bits except the sign bit. -/
def SIGN_MASK : Nat := 0x7FFFFFFFFFFFFFFF

/-- Constant `QUIET_NAN` from `raw.rs`: the canonical positive quiet NaN. -/
def QUIET_NAN : Nat := 0x7FF8000000000000

/-- Constant `NEG_QUIET_NAN` from `raw.rs`: the canonical negative quiet NaN. -/
def NEG_QUIET_NAN : Nat := 0xFFF8000000000000

/-- Bit-level `f64::is_nan` on a 64-bit pattern: the 11 exponent bits
(bits 52..62) are all ones and the 52 mantissa bits are not all zero. -/
def f64IsNan (bits : Nat) : Bool :=
  (bits / 0x10000000000000) % 0x800 == 0x7FF && bits % 0x10000000000000 != 0

/-- Bit-level `f64::is_sign_positive` on a 64-bit pattern: sign bit (bit 63)
clear. Intended for patterns below `2^64`. -/
def f64IsSignPositive (bits : Nat) : Bool :=
  bits / 0x8000000000000000 == 0

/-- The `TagVal` enum from `raw.rs` (source constructor names carry a leading
underscore: `_P1` ... `_N7`). -/
inductive TagVal
  | P1 | P2 | P3 | P4 | P5 | P6 | P7
  | N1 | N2 | N3 | N4 | N5 | N6 | N7
deriving DecidableEq, Repr

/-- The `RawTag` struct from `raw.rs`: a newtype over `TagVal`. -/
structure RawTag where
  val : TagVal
deriving DecidableEq, Repr

/-- Models `RawTag::new_checked`: returns `none` when `(neg, v)` is outside
the 14 valid combinations. The match arms are identical to those of
`RawTag::new_unchecked`, whose final arm is `unreachable_unchecked` (undefined
behavior, modelled here as `none`). -/
def RawTag.new_checked (neg : Bool) (v : Nat) : Option RawTag :=
  match neg, v with
  | false, 1 => some ⟨.P1⟩
  | false, 2 => some ⟨.P2⟩
  | false, 3 => some ⟨.P3⟩
  | false, 4 => some ⟨.P4⟩
  | false, 5 => some ⟨.P5⟩
  | false, 6 => some ⟨.P6⟩
  | false, 7 => some ⟨.P7⟩
  | true, 1 => some ⟨.N1⟩
  | true, 2 => some ⟨.N2⟩
  | true, 3 => some ⟨.N3⟩
  | true, 4 => some ⟨.N4⟩
  | true, 5 => some ⟨.N5⟩
  | true, 6 => some ⟨.N6⟩
  | true, 7 => some ⟨.N7⟩
  | _, _ => none

/-- Models `RawTag::new`: takes a `NonZeroU8` argument (callers guarantee
`1 ≤ v ≤ 255`), masks it with `0x07`, and forwards to `new_unchecked`. The
`unreachable_unchecked` arm of `new_unchecked` is modelled as `none` (its match
arms are otherwise identical to `new_checked`). -/
def RawTag.new (neg : Bool) (v : Nat) : Option RawTag :=
  RawTag.new_checked neg (Nat.land v 0x07)

/-- Models `RawTag::neg_val`: the sign bit and trailing value of the tag. -/
def RawTag.neg_val (t : RawTag) : Bool × Nat :=
  match t.val with
  | .P1 => (false, 1)
  | .P2 => (false, 2)
  | .P3 => (false, 3)
  | .P4 => (false, 4)
  | .P5 => (false, 5)
  | .P6 => (false, 6)
  | .P7 => (false, 7)
  | .N1 => (true, 1)
  | .N2 => (true, 2)
  | .N3 => (true, 3)
  | .N4 => (true, 4)
  | .N5 => (true, 5)
  | .N6 => (true, 6)
  | .N7 => (true, 7)

/-- The `Header` struct from `raw.rs`: a `u16` (a `Nat` below `2^16` for all
headers built by `Header.new`). -/
structure Header where
  bits : Nat
deriving DecidableEq, Repr

/-- Models `Header::new`: `0x7FF8 | ((neg as u16) << 15) | (val as u16)`. -/
def Header.new (tag : RawTag) : Header :=
  let nv := tag.neg_val
  ⟨Nat.lor (Nat.lor 0x7FF8 ((if nv.1 then 1 else 0) <<< 15)) nv.2⟩

/-- Models `Header::get_sign`: `self.0 & 0x8000 != 0`. -/
def Header.get_sign (h : Header) : Bool :=
  Nat.land h.bits 0x8000 != 0

/-- Models `Header::get_tag`: `(self.0 & 0x0007) as u8`. -/
def Header.get_tag (h : Header) : Nat :=
  Nat.land h.bits 0x0007

/-- Models `Header::tag`: `RawTag::new_unchecked(self.get_sign(), self.get_tag())`.
The source relies on invariant I2 (the low three bits are never zero); the
undefined out-of-range branch is modelled as `none` through `new_checked`,
whose match arms are identical. -/
def Header.tag (h : Header) : Option RawTag :=
  RawTag.new_checked h.get_sign h.get_tag

/-- The `Value` struct from `raw.rs`: a `Header` plus 6 payload bytes, the
latter read as a little-endian `Nat` below `2^48`. -/
structure Value where
  header : Header
  data : Nat
deriving DecidableEq, Repr

/-- Models `Value::new`. -/
def Value.new (tag : RawTag) (data : Nat) : Value :=
  ⟨Header.new tag, data⟩

/-- Models `Value::empty`: all-zero data. -/
def Value.empty (tag : RawTag) : Value :=
  Value.new tag 0

/-- Models `Value::set_data`. -/
def Value.set_data (v : Value) (d : Nat) : Value :=
  { v with data := d }

/-- Models `Value::tag`: `self.header.tag()`. -/
def Value.tag (v : Value) : Option RawTag :=
  v.header.tag

/-- The 8 bytes of a `Value` read as a little-endian `u64` (`Value::whole`):
data bytes low, header in the top 16 bits. -/
def Value.toBits (v : Value) : Nat :=
  v.data + v.header.bits * 0x1000000000000

/-- A 64-bit word split back into a `Value`: top 16 bits are the header, low
48 bits the data (`Value::whole_mut` written with an arbitrary valid word). -/
def Value.ofBits (w : Nat) : Value :=
  ⟨⟨w >>> 48⟩, Nat.land w 0xFFFFFFFFFFFF⟩

/-! RawStore implementations from `raw.rs`. Each Rust `impl RawStore for T` is
a pair of functions `<T>ToVal : T → Value → Value` / `<T>FromVal : Value → T`. -/

/-- Models `impl RawStore for [u8; 6]`: `to_val` writes the whole data. -/
def array6ToVal (d : Nat) (v : Value) : Value :=
  v.set_data d

/-- Models `impl RawStore for [u8; 6]`: `from_val` reads the whole data. -/
def array6FromVal (v : Value) : Nat :=
  v.data

/-- Models `impl RawStore for bool`: `to_val` writes `[1].truncate_to()`,
i.e. the bytes `[1, 0, 0, 0, 0, 0]`, regardless of the value of `self`. -/
def boolToVal (_b : Bool) (v : Value) : Value :=
  v.set_data 1

/-- Models `impl RawStore for bool`: `from_val` is `value.data()[0] == 1`. -/
def boolFromVal (v : Value) : Bool :=
  v.data % 0x100 == 1

/-- Models `impl RawStore for u8` (`to_ne_bytes` then `truncate_to::<6>`);
callers supply `x < 2^8`. -/
def u8ToVal (x : Nat) (v : Value) : Value :=
  v.set_data x

/-- Models `impl RawStore for u8`: `from_ne_bytes` of the first byte. -/
def u8FromVal (v : Value) : Nat :=
  v.data % 0x100

/-- Models `impl RawStore for u16`; callers supply `x < 2^16`. -/
def u16ToVal (x : Nat) (v : Value) : Value :=
  v.set_data x

/-- Models `impl RawStore for u16`. -/
def u16FromVal (v : Value) : Nat :=
  v.data % 0x10000

/-- Models `impl RawStore for u32`; callers supply `x < 2^32`. -/
def u32ToVal (x : Nat) (v : Value) : Value :=
  v.set_data x

/-- Models `impl RawStore for u32`. -/
def u32FromVal (v : Value) : Nat :=
  v.data % 0x100000000

/-- Two's-complement 32-bit pattern of an `i32` (`i32::to_ne_bytes`). -/
def i32Bits (x : Int) : Nat :=
  (x % 0x100000000).toNat

/-- Interpret a 32-bit pattern as an `i32` (`i32::from_ne_bytes`). -/
def i32OfBits (n : Nat) : Int :=
  if n % 0x100000000 < 0x80000000 then (n % 0x100000000 : Nat)
  else (n % 0x100000000 : Nat) - 0x100000000

/-- Models `impl RawStore for i32`: two's-complement bytes, zero-extended to
the 6 data bytes. -/
def i32ToVal (x : Int) (v : Value) : Value :=
  v.set_data (i32Bits x)

/-- Models `impl RawStore for i32`: reads the first four data bytes. -/
def i32FromVal (v : Value) : Int :=
  i32OfBits v.data

/-- Two's-complement 8-bit pattern of an `i8`. -/
def i8Bits (x : Int) : Nat :=
  (x % 0x100).toNat

/-- Models `impl RawStore for i8`. -/
def i8ToVal (x : Int) (v : Value) : Value :=
  v.set_data (i8Bits x)

/-- Models `impl RawStore for i8` reads. -/
def i8FromVal (v : Value) : Int :=
  if v.data % 0x100 < 0x80 then (v.data % 0x100 : Nat)
  else (v.data % 0x100 : Nat) - 0x100

/-- Two's-complement 16-bit pattern of an `i16`. -/
def i16Bits (x : Int) : Nat :=
  (x % 0x10000).toNat

/-- Models `impl RawStore for i16`. -/
def i16ToVal (x : Int) (v : Value) : Value :=
  v.set_data (i16Bits x)

/-- Models `impl RawStore for i16` reads. -/
def i16FromVal (v : Value) : Int :=
  if v.data % 0x10000 < 0x8000 then (v.data % 0x10000 : Nat)
  else (v.data % 0x10000 : Nat) - 0x10000

/-- Models `store_ptr` on 64-bit targets: the address is asserted to fit in
48 bits (`assert!(ptr.addr() <= 0x0000_FFFF_FFFF_FFFF)`, a fatal abort
modelled as `none`), then `addr | (header << 48)` is written into the whole
8-byte word. -/
def store_ptr (v : Value) (addr : Nat) : Option Value :=
  if addr ≤ 0xFFFFFFFFFFFF then
    some (Value.ofBits (Nat.lor addr (v.header.bits <<< 48)))
  else none

/-- Models `load_ptr` on 64-bit targets: read the whole 8-byte word and mask
the top 16 bits back off (`addr & 0x0000_FFFF_FFFF_FFFF`). -/
def load_ptr (v : Value) : Nat :=
  Nat.land v.toBits 0xFFFFFFFFFFFF

/-- Models `Value::store::<T>`: build `Value::new(tag, [0; 6])` then run the
payload type's `to_val` (here passed explicitly in place of the `RawStore`
trait dictionary). -/
def Value.store {α : Type} (to_val : α → Value → Value) (tag : RawTag) (val : α) : Value :=
  to_val val (Value.new tag 0)

/-- Models `Value::store::<*const T / *mut T>`, whose `to_val` is `store_ptr`
(fallible through the 48-bit assert). -/
def Value.storePtr (tag : RawTag) (addr : Nat) : Option Value :=
  store_ptr (Value.new tag 0) addr

/-- Models `Value::load::<T>`: run the payload type's `from_val`, with no tag
check. -/
def Value.load {α : Type} (from_val : Value → α) (v : Value) : α :=
  from_val v

/-! The `RawBox` union from `raw.rs`, modelled as its 64-bit word. -/

/-- Models `RawBox::from_float`: NaNs are canonicalized to `QUIET_NAN` /
`NEG_QUIET_NAN` preserving only the sign; all other floats are stored
verbatim. -/
def RawBox.from_float (f : Nat) : Nat :=
  match f64IsNan f, f64IsSignPositive f with
  | true, true => QUIET_NAN
  | true, false => NEG_QUIET_NAN
  | false, _ => f

/-- Models `RawBox::from_value`: stores the `Value` verbatim (its 8 bytes are
the word). -/
def RawBox.from_value (v : Value) : Nat :=
  v.toBits

/-- Models `RawBox::is_float`: `!self.float.is_nan() || self.bits & SIGN_MASK == QUIET_NAN`. -/
def RawBox.is_float (bits : Nat) : Bool :=
  !f64IsNan bits || Nat.land bits SIGN_MASK == QUIET_NAN

/-- Models `RawBox::is_value`: `self.float.is_nan() && self.bits & SIGN_MASK != QUIET_NAN`. -/
def RawBox.is_value (bits : Nat) : Bool :=
  f64IsNan bits && Nat.land bits SIGN_MASK != QUIET_NAN

/-- Models `RawBox::float`: `Some(&self.float)` iff `is_float`. -/
def RawBox.float (bits : Nat) : Option Nat :=
  if RawBox.is_float bits then some bits else none

/-- Models `RawBox::value`: `Some(&self.value)` iff `is_value`. -/
def RawBox.value (bits : Nat) : Option Value :=
  if RawBox.is_value bits then some (Value.ofBits bits) else none

/-- Models `RawBox::tag`: `Some(self.value.tag())` iff `is_value` (the inner
`Header::tag` is itself `Option`-valued in this model, flattened here). -/
def RawBox.tag (bits : Nat) : Option RawTag :=
  (RawBox.value bits).bind Value.tag

/-- Models `SingleNaNF64::from_mut`: `None` iff the referenced float is a NaN
whose sign-masked bits differ from `QUIET_NAN` (a non-canonical NaN). -/
def SingleNaNF64.from_mut (bits : Nat) : Option Nat :=
  if f64IsNan bits && Nat.land bits SIGN_MASK != QUIET_NAN then none
  else some bits

/-- Models `RawBox::float_mut`: `SingleNaNF64::from_mut(&mut self.float)` iff
`is_float`, `None` otherwise. -/
def RawBox.float_mut (bits : Nat) : Option Nat :=
  if RawBox.is_float bits then SingleNaNF64.from_mut bits else none

/-! The `SingleNaNF64` type from `singlenan.rs`, modelled by the bit pattern
it wraps. Its arithmetic impls apply an `f64` operation and funnel the result
through `new`; the `f64` operation itself is outside this embedding and is
passed as an explicit function argument. -/

/-- Models `SingleNaNF64::new`: normalize any NaN into the canonical value. -/
def SingleNaNF64.new (f : Nat) : Nat :=
  match f64IsNan f, f64IsSignPositive f with
  | true, true => QUIET_NAN
  | true, false => NEG_QUIET_NAN
  | false, _ => f

/-- Models `SingleNaNF64::write`: `*self = SingleNaNF64::new(val)`. -/
def SingleNaNF64.write (f : Nat) : Nat :=
  SingleNaNF64.new f

/-- Models `impl Add for SingleNaNF64`: `SingleNaNF64::new(self.0 + rhs.0)`,
with `fadd` standing for `f64` addition. -/
def SingleNaNF64.add (fadd : Nat → Nat → Nat) (a b : Nat) : Nat :=
  SingleNaNF64.new (fadd a b)

/-- Models `impl Sub for SingleNaNF64`. -/
def SingleNaNF64.sub (fsub : Nat → Nat → Nat) (a b : Nat) : Nat :=
  SingleNaNF64.new (fsub a b)

/-- Models `impl Mul for SingleNaNF64`. -/
def SingleNaNF64.mul (fmul : Nat → Nat → Nat) (a b : Nat) : Nat :=
  SingleNaNF64.new (fmul a b)

/-- Models `impl Div for SingleNaNF64`. -/
def SingleNaNF64.div (fdiv : Nat → Nat → Nat) (a b : Nat) : Nat :=
  SingleNaNF64.new (fdiv a b)

/-- Models `impl AddAssign<f64> for SingleNaNF64`: `self.write(self.0 + rhs)`. -/
def SingleNaNF64.add_assign (fadd : Nat → Nat → Nat) (a b : Nat) : Nat :=
  SingleNaNF64.write (fadd a b)

/-- Models `impl SubAssign<f64> for SingleNaNF64`. -/
def SingleNaNF64.sub_assign (fsub : Nat → Nat → Nat) (a b : Nat) : Nat :=
  SingleNaNF64.write (fsub a b)

/-- Models `impl MulAssign<f64> for SingleNaNF64`. -/
def SingleNaNF64.mul_assign (fmul : Nat → Nat → Nat) (a b : Nat) : Nat :=
  SingleNaNF64.write (fmul a b)

/-- Models `impl DivAssign<f64> for SingleNaNF64`. -/
def SingleNaNF64.div_assign (fdiv : Nat → Nat → Nat) (a b : Nat) : Nat :=
  SingleNaNF64.write (fdiv a b)

/-! The `PrimitiveTag` / `NanBoxedValue` layer from `nan_boxed.rs`. -/

/-- The `PrimitiveTag` enum from `nan_boxed.rs`. -/
inductive PrimitiveTag
  | Null | Undefined | Boolean | Integer32 | BigInt | Object | Symbol | String
deriving DecidableEq, Repr

/-- Models `PrimitiveTag::raw` (the calls are `RawTag::new_unchecked` with
in-range constants, written here with the corresponding `TagVal`). -/
def PrimitiveTag.raw : PrimitiveTag → RawTag
  | .Null => ⟨.P1⟩
  | .Undefined => ⟨.P2⟩
  | .Boolean => ⟨.P3⟩
  | .Integer32 => ⟨.P4⟩
  | .BigInt => ⟨.N1⟩
  | .Object => ⟨.N2⟩
  | .Symbol => ⟨.N3⟩
  | .String => ⟨.N4⟩

/-- Models `impl Into<PrimitiveTag> for RawTag`: the final arm is
`unreachable_unchecked` (undefined behavior for the six unused tags), modelled
as `none`. -/
def RawTag.toPrimitive (t : RawTag) : Option PrimitiveTag :=
  match t.neg_val with
  | (false, 1) => some .Null
  | (false, 2) => some .Undefined
  | (false, 3) => some .Boolean
  | (false, 4) => some .Integer32
  | (true, 1) => some .BigInt
  | (true, 2) => some .Object
  | (true, 3) => some .Symbol
  | (true, 4) => some .String
  | _ => none

/-- The `NanBoxedValue` struct from `nan_boxed.rs`: a newtype over the
`RawBox` word. Heap payloads appear here as their 48-bit addresses; the
reference-count bookkeeping of the external handle types is modelled
separately below. -/
structure NanBoxedValue where
  box : Nat
deriving DecidableEq, Repr

/-- Models `NanBoxedValue::null`. -/
def NanBoxedValue.null : NanBoxedValue :=
  ⟨RawBox.from_value (Value.empty PrimitiveTag.Null.raw)⟩

/-- Models `NanBoxedValue::undefined`. -/
def NanBoxedValue.undefined : NanBoxedValue :=
  ⟨RawBox.from_value (Value.empty PrimitiveTag.Undefined.raw)⟩

/-- Models `NanBoxedValue::float64`: `RawBox::from_float(value)`. -/
def NanBoxedValue.float64 (f : Nat) : NanBoxedValue :=
  ⟨RawBox.from_float f⟩

/-- Models `NanBoxedValue::integer32`: `Value::store(PrimitiveTag::Integer32, value)`. -/
def NanBoxedValue.integer32 (x : Int) : NanBoxedValue :=
  ⟨RawBox.from_value (Value.store i32ToVal PrimitiveTag.Integer32.raw x)⟩

/-- Models `NanBoxedValue::boolean`: `Value::store(PrimitiveTag::Boolean, value)`. -/
def NanBoxedValue.boolean (b : Bool) : NanBoxedValue :=
  ⟨RawBox.from_value (Value.store boolToVal PrimitiveTag.Boolean.raw b)⟩

/-- Models the bit-level part of `NanBoxedValue::bigint`: store the address
produced by `JsBigInt::into_raw` under the BigInt tag (fallible through the
48-bit pointer assert). -/
def NanBoxedValue.bigint (addr : Nat) : Option NanBoxedValue :=
  (Value.storePtr PrimitiveTag.BigInt.raw addr).map fun v => ⟨RawBox.from_value v⟩

/-- Models the bit-level part of `NanBoxedValue::object`. -/
def NanBoxedValue.object (addr : Nat) : Option NanBoxedValue :=
  (Value.storePtr PrimitiveTag.Object.raw addr).map fun v => ⟨RawBox.from_value v⟩

/-- Models the bit-level part of `NanBoxedValue::symbol`. -/
def NanBoxedValue.symbol (addr : Nat) : Option NanBoxedValue :=
  (Value.storePtr PrimitiveTag.Symbol.raw addr).map fun v => ⟨RawBox.from_value v⟩

/-- Models the bit-level part of `NanBoxedValue::string`. -/
def NanBoxedValue.stringOf (addr : Nat) : Option NanBoxedValue :=
  (Value.storePtr PrimitiveTag.String.raw addr).map fun v => ⟨RawBox.from_value v⟩

/-- Models `NanBoxedValue::is_undefined`: `self.0.tag() == Some(PrimitiveTag::Undefined.into())`. -/
def NanBoxedValue.is_undefined (v : NanBoxedValue) : Bool :=
  RawBox.tag v.box == some PrimitiveTag.Undefined.raw

/-- Models `NanBoxedValue::is_null`. -/
def NanBoxedValue.is_null (v : NanBoxedValue) : Bool :=
  RawBox.tag v.box == some PrimitiveTag.Null.raw

/-- Models `NanBoxedValue::is_bool`. -/
def NanBoxedValue.is_bool (v : NanBoxedValue) : Bool :=
  RawBox.tag v.box == some PrimitiveTag.Boolean.raw

/-- Models `NanBoxedValue::is_float64`: `self.0.is_float()`. -/
def NanBoxedValue.is_float64 (v : NanBoxedValue) : Bool :=
  RawBox.is_float v.box

/-- Models `NanBoxedValue::is_integer32`. -/
def NanBoxedValue.is_integer32 (v : NanBoxedValue) : Bool :=
  RawBox.tag v.box == some PrimitiveTag.Integer32.raw

/-- Models `NanBoxedValue::is_bigint`. -/
def NanBoxedValue.is_bigint (v : NanBoxedValue) : Bool :=
  RawBox.tag v.box == some PrimitiveTag.BigInt.raw

/-- Models `NanBoxedValue::is_object`. -/
def NanBoxedValue.is_object (v : NanBoxedValue) : Bool :=
  RawBox.tag v.box == some PrimitiveTag.Object.raw

/-- Models `NanBoxedValue::is_symbol`. -/
def NanBoxedValue.is_symbol (v : NanBoxedValue) : Bool :=
  RawBox.tag v.box == some PrimitiveTag.Symbol.raw

/-- Models `NanBoxedValue::is_string`. -/
def NanBoxedValue.is_string (v : NanBoxedValue) : Bool :=
  RawBox.tag v.box == some PrimitiveTag.String.raw

/-- Models `NanBoxedValue::as_float64`: `self.0.float().copied()`. -/
def NanBoxedValue.as_float64 (v : NanBoxedValue) : Option Nat :=
  RawBox.float v.box

/-- Models `NanBoxedValue::as_integer32`: tag-checked `i32::from_val`. -/
def NanBoxedValue.as_integer32 (v : NanBoxedValue) : Option Int :=
  if v.is_integer32 then (RawBox.value v.box).map i32FromVal else none

/-- Models `NanBoxedValue::as_bool`: tag-checked `bool::from_val`. -/
def NanBoxedValue.as_bool (v : NanBoxedValue) : Option Bool :=
  if v.is_bool then (RawBox.value v.box).map boolFromVal else none

/-- Models the bit-level part of `NanBoxedValue::as_bigint`: tag-checked
pointer load (`RawStore::from_val`, i.e. `load_ptr`); the handle
reconstruction `JsBigInt::from_raw` is modelled separately below. -/
def NanBoxedValue.as_bigint_addr (v : NanBoxedValue) : Option Nat :=
  if v.is_bigint then (RawBox.value v.box).map load_ptr else none

/-- Models the bit-level part of `NanBoxedValue::as_object`. -/
def NanBoxedValue.as_object_addr (v : NanBoxedValue) : Option Nat :=
  if v.is_object then (RawBox.value v.box).map load_ptr else none

/-- Models the bit-level part of `NanBoxedValue::as_symbol`. -/
def NanBoxedValue.as_symbol_addr (v : NanBoxedValue) : Option Nat :=
  if v.is_symbol then (RawBox.value v.box).map load_ptr else none

/-- Models the bit-level part of `NanBoxedValue::as_string`. -/
def NanBoxedValue.as_string_addr (v : NanBoxedValue) : Option Nat :=
  if v.is_string then (RawBox.value v.box).map load_ptr else none

/-- The `JsVariant` sum type consumed by `as_variant` (heap handles appear as
their addresses). -/
inductive JsVariant
  | Null
  | Undefined
  | Boolean (b : Bool)
  | Integer32 (i : Int)
  | Float64 (bits : Nat)
  | BigInt (addr : Nat)
  | Object (addr : Nat)
  | Symbol (addr : Nat)
  | String (addr : Nat)
deriving DecidableEq, Repr

/-- Models `NanBoxedValue::as_variant`. The source `unwrap`s values that its
tag dispatch guarantees are present; a failing `unwrap` or the undefined
`Into<PrimitiveTag>` branch is modelled as `none`. -/
def NanBoxedValue.as_variant (v : NanBoxedValue) : Option JsVariant :=
  match RawBox.tag v.box with
  | none => (v.as_float64).map .Float64
  | some t =>
    match t.toPrimitive with
    | none => none
    | some .Null => some .Null
    | some .Undefined => some .Undefined
    | some .Boolean => ((RawBox.value v.box).map boolFromVal).map .Boolean
    | some .Integer32 => ((RawBox.value v.box).map i32FromVal).map .Integer32
    | some .BigInt => (v.as_bigint_addr).map .BigInt
    | some .Object => (v.as_object_addr).map .Object
    | some .Symbol => (v.as_symbol_addr).map .Symbol
    | some .String => (v.as_string_addr).map .String

/-! Reference-count accounting of the external heap handle types
(`JsObject` / `JsString` / `JsSymbol` / `JsBigInt`). These types are not part
of the value-representation sources; their contract is taken from the spec and
each transition below is a function on the allocation's ownership count. -/

/-- Modelled from the spec: `into_raw(self)` on a heap handle (JsObject,
JsString, JsSymbol, JsBigInt, which are outside the nan_boxed sources)
consumes one ownership unit of the handle and returns its address; the
allocation's reference count itself is unchanged, the unit now being carried
by the raw pointer. -/
def handleIntoRawRc (rc : Nat) : Nat := rc

/-- Modelled from the spec: `from_raw(ptr)` reconstructs one ownership unit
from a previously produced address without touching the reference count; the
caller must guarantee the address was produced by a matching `into_raw` and
was not already reconstructed. -/
def handleFromRawRc (rc : Nat) : Nat := rc

/-- Modelled from the spec: `Clone` on a heap handle is a reference-count
bump. -/
def handleCloneRc (rc : Nat) : Nat := rc + 1

/-- Modelled from the spec: dropping a heap handle releases its ownership
unit, decrementing the reference count. -/
def handleDropRc (rc : Nat) : Nat := rc - 1

/-- Reference-count effect of `NanBoxedValue::as_object` (and the other
heap-kind accessors) on a heap-kind value: the source reconstructs a handle
with `from_raw` on the stored address (no `ManuallyDrop`, no clone), so the
count is unchanged and the returned handle aliases the box's own ownership
unit. -/
def asObjectRc (rc : Nat) : Nat :=
  handleFromRawRc rc

/-- Reference-count effect of `impl Clone for NanBoxedValue` on a heap-kind
value, following the code path `let o = self.as_object()` (from_raw),
`o.clone()` (clone), `Self::object(...)` (into_raw), and the drop of the
temporary `o` at the end of the branch. -/
def nanBoxedCloneRc (rc : Nat) : Nat :=
  handleDropRc (handleIntoRawRc (handleCloneRc (asObjectRc rc)))

/-- Reference-count effect of `impl Drop for NanBoxedValue`: the body of
`drop` is entirely commented out in the source, so dropping releases nothing
for any variant. -/
def nanBoxedDropRc (rc : Nat) : Nat := rc

/-! Helper lemmas bridging the bitwise operations of the source to plain
modular arithmetic. -/

/-- Masking with `SIGN_MASK` is reduction modulo `2^63`. -/
theorem land_sign_mask (x : Nat) : Nat.land x SIGN_MASK = x % 0x8000000000000000 := by
  have h := Nat.and_pow_two_sub_one_eq_mod x 63
  norm_num at h
  exact h

/-- Masking with the 48-bit pointer mask is reduction modulo `2^48`. -/
theorem land_mask48 (x : Nat) : Nat.land x 0xFFFFFFFFFFFF = x % 0x1000000000000 := by
  have h := Nat.and_pow_two_sub_one_eq_mod x 48
  norm_num at h
  exact h

/-- Oring a value below `2^48` with a left-shifted header adds disjoint bit
ranges. -/
theorem lor_low_high (a h : Nat) (ha : a < 0x1000000000000) :
    Nat.lor a (h <<< 48) = a + h * 0x1000000000000 := by
  have key : (2 : Nat) ^ 48 * h + a = 2 ^ 48 * h ||| a :=
    Nat.mul_add_lt_is_or (by norm_num; omega) h
  have hs : h <<< 48 = h * 2 ^ 48 := Nat.shiftLeft_eq h 48
  have step : Nat.lor a (h <<< 48) = 2 ^ 48 * h + a := by
    show a ||| (h <<< 48) = 2 ^ 48 * h + a
    rw [hs, Nat.lor_comm, Nat.mul_comm h, ← key]
  rw [step]
  norm_num
  ring

/-- Splitting a word into a `Value` and reading it back is the identity. -/
theorem toBits_ofBits (w : Nat) : (Value.ofBits w).toBits = w := by
  simp only [Value.ofBits, Value.toBits, land_mask48, Nat.shiftRight_eq_div_pow]
  have h48 : (2 : Nat) ^ 48 = 0x1000000000000 := by norm_num
  rw [h48]
  omega

/-- The header bits produced by `Header.new` in closed arithmetic form. -/
theorem header_new_bits (t : RawTag) :
    (Header.new t).bits = 0x7FF8 + (if t.neg_val.1 then 0x8000 else 0) + t.neg_val.2 := by
  obtain ⟨v⟩ := t
  cases v <;> decide

/-- The trailing tag value is always in `1..=7` (invariant I2). -/
theorem neg_val_range (t : RawTag) : 1 ≤ t.neg_val.2 ∧ t.neg_val.2 ≤ 7 := by
  obtain ⟨v⟩ := t
  cases v <;> decide

/-- Tag round-trip through a header: `Header::new(t).tag() = t`. -/
theorem header_tag_new (t : RawTag) : (Header.new t).tag = some t := by
  obtain ⟨v⟩ := t
  cases v <;> decide

/-- Every word built by `RawBox.from_value` from a tagged `Value` passes the
`is_value` discriminator. -/
theorem is_value_from_value (t : RawTag) (d : Nat) (hd : d < 0x1000000000000) :
    RawBox.is_value (RawBox.from_value (Value.new t d)) = true := by
  obtain ⟨neg, v, hv1, hv7, hb⟩ : ∃ neg v, 1 ≤ v ∧ v ≤ 7 ∧
      (Header.new t).bits = 0x7FF8 + (if neg then 0x8000 else 0) + v :=
    ⟨t.neg_val.1, t.neg_val.2, (neg_val_range t).1, (neg_val_range t).2, header_new_bits t⟩
  simp only [RawBox.is_value, RawBox.from_value, Value.toBits, Value.new, hb,
    land_sign_mask, f64IsNan, Bool.and_eq_true, bne_iff_ne, ne_eq, beq_iff_eq,
    QUIET_NAN, decide_eq_true_eq]
  cases neg <;> simp only [if_true, if_false, Bool.false_eq_true, Bool.true_eq_false,
    ite_true, ite_false, cond_true, cond_false] <;> omega

/-- Every word built by `RawBox.from_float` passes the `is_float`
discriminator. -/
theorem is_float_from_float (f : Nat) : RawBox.is_float (RawBox.from_float f) = true := by
  unfold RawBox.from_float
  cases h1 : f64IsNan f <;> cases h2 : f64IsSignPositive f <;>
    simp [h1, h2, RawBox.is_float] <;> decide

/-- The two discriminators are exact complements. -/
theorem is_float_eq_not_is_value (bits : Nat) :
    RawBox.is_float bits = !RawBox.is_value bits := by
  unfold RawBox.is_float RawBox.is_value
  cases h1 : f64IsNan bits <;> cases h2 : Nat.land bits SIGN_MASK == QUIET_NAN <;>
    simp [h1, h2, bne]

/-- A bit pattern is never a NaN other than the two canonical ones
(invariant I4 of the spec). -/
def canonNaNOnly (x : Nat) : Prop :=
  f64IsNan x = true → x = QUIET_NAN ∨ x = NEG_QUIET_NAN

/-- Core canonicalization fact behind invariant I4. -/
theorem singlenan_new_canon (f : Nat) : canonNaNOnly (SingleNaNF64.new f) := by
  intro h
  unfold SingleNaNF64.new at h ⊢
  cases h1 : f64IsNan f <;> cases h2 : f64IsSignPositive f <;> simp [h1, h2] at h ⊢

end Boa

namespace Boa

/-- C1 (code bug): the boolean round-trip fails at `b = false`.
`bool::to_val` writes the byte array `[1, 0, 0, 0, 0, 0]` regardless of the
stored boolean, so `NanBoxedValue::boolean(false).as_bool()` evaluates to
`Some(true)` and `as_variant()` to `Boolean(true)`, while the tag predicate
`is_bool` is still true. The repository's own `boolean()` test asserts
`Some(false)`. -/
theorem c1_boolean_false_bug :
    (NanBoxedValue.boolean false).as_bool = some true ∧
    (NanBoxedValue.boolean false).as_variant = some (JsVariant.Boolean true) ∧
    (NanBoxedValue.boolean false).is_bool = true ∧
    (NanBoxedValue.boolean true).as_bool = some true := by
  decide

/-- C2 (code bug): on a heap-kind value with reference count 1, the Clone
implementation leaves the count at 1 instead of raising it to 2 (the
temporary handle reconstructed by `as_object` releases the unit its `clone`
added), and the Drop implementation, whose body is commented out, releases
nothing. -/
theorem c2_clone_drop_refcount_bug :
    nanBoxedCloneRc 1 = 1 ∧ nanBoxedDropRc 1 = 1 := by
  decide

/-- C3 (code bug): `as_object` (and the other heap accessors) reconstructs
the stored handle with `from_raw` instead of cloning it, so the reference
count is unchanged rather than incremented, and the returned handle aliases
the ownership unit the `NanBoxedValue` itself holds. -/
theorem c3_as_object_refcount_bug :
    asObjectRc 1 = 1 ∧ ¬asObjectRc 1 = 1 + 1 := by
  decide

/-- C4: `float64(f).as_float64()` is `Some(f)` bit-identically when `f` is
not NaN, and the canonical quiet NaN matching the sign of `f` when `f` is
NaN. -/
theorem c4_float64_roundtrip_canonical (f : Nat) (_hf : f < 0x10000000000000000) :
    (f64IsNan f = false → (NanBoxedValue.float64 f).as_float64 = some f) ∧
    (f64IsNan f = true → f64IsSignPositive f = true →
      (NanBoxedValue.float64 f).as_float64 = some QUIET_NAN) ∧
    (f64IsNan f = true → f64IsSignPositive f = false →
      (NanBoxedValue.float64 f).as_float64 = some NEG_QUIET_NAN) := by
  have key : ∀ g : Nat, RawBox.float (RawBox.from_float g) = some (RawBox.from_float g) := by
    intro g
    unfold RawBox.float
    rw [is_float_from_float]
    rfl
  refine ⟨fun h1 => ?_, fun h1 h2 => ?_, fun h1 h2 => ?_⟩ <;>
    unfold NanBoxedValue.as_float64 NanBoxedValue.float64 <;>
    rw [key] <;> unfold RawBox.from_float
  · simp [h1]
  · simp [h1, h2]
  · simp [h1, h2]

/-- Witness for C4: a quiet positive NaN input canonicalizes to `QUIET_NAN`,
a negative NaN input to `NEG_QUIET_NAN`, and the bit pattern of 1.0 is
returned verbatim. -/
theorem c4_witness :
    (NanBoxedValue.float64 0x3FF0000000000000).as_float64 = some 0x3FF0000000000000 ∧
    (NanBoxedValue.float64 0x7FF0000000000001).as_float64 = some QUIET_NAN ∧
    (NanBoxedValue.float64 0xFFF0000000000001).as_float64 = some NEG_QUIET_NAN :=
  ⟨(c4_float64_roundtrip_canonical 0x3FF0000000000000 (by norm_num)).1 (by decide),
   (c4_float64_roundtrip_canonical 0x7FF0000000000001 (by norm_num)).2.1 (by decide) (by decide),
   (c4_float64_roundtrip_canonical 0xFFF0000000000001 (by norm_num)).2.2 (by decide) (by decide)⟩

/-- C5: every tagged `Value` wrapped by `from_value` tests as a value and not
as a float, every `from_float` result tests as a float and not as a value,
and for every `RawBox` word exactly one of the two discriminators holds. -/
theorem c5_tag_value_float_disjoint :
    (∀ (t : RawTag) (d : Nat), d < 0x1000000000000 →
      RawBox.is_value (RawBox.from_value (Value.new t d)) = true ∧
      RawBox.is_float (RawBox.from_value (Value.new t d)) = false) ∧
    (∀ f : Nat,
      RawBox.is_float (RawBox.from_float f) = true ∧
      RawBox.is_value (RawBox.from_float f) = false) ∧
    (∀ bits : Nat, RawBox.is_float bits = !RawBox.is_value bits) := by
  refine ⟨fun t d hd => ⟨is_value_from_value t d hd, ?_⟩,
    fun f => ⟨is_float_from_float f, ?_⟩, is_float_eq_not_is_value⟩
  · rw [is_float_eq_not_is_value, is_value_from_value t d hd]
    rfl
  · have h := is_float_eq_not_is_value (RawBox.from_float f)
    rw [is_float_from_float] at h
    simpa using h.symm

/-- Witness for C5 at tag P1 with payload 5 and at the bit pattern of 1.0. -/
theorem c5_witness :
    RawBox.is_value (RawBox.from_value (Value.new ⟨.P1⟩ 5)) = true ∧
    RawBox.is_float (RawBox.from_value (Value.new ⟨.P1⟩ 5)) = false ∧
    RawBox.is_float (RawBox.from_float 0x3FF0000000000000) = true :=
  ⟨(c5_tag_value_float_disjoint.1 ⟨.P1⟩ 5 (by norm_num)).1,
   (c5_tag_value_float_disjoint.1 ⟨.P1⟩ 5 (by norm_num)).2,
   (c5_tag_value_float_disjoint.2.1 0x3FF0000000000000).1⟩

/-- C6 (code bug): `RawTag::new` masks its `NonZeroU8` argument with `0x07`;
the valid nonzero input 8 masks to 0, which violates the `1..8` precondition
of `RawTag::new_unchecked` and reaches its `unreachable_unchecked` branch
(modelled as `none`), contrary to the claim that the masked value always lies
in `1..=7`. -/
theorem c6_rawtag_new_mask_bug :
    (8 : Nat) ≠ 0 ∧ Nat.land 8 0x07 = 0 ∧ RawTag.new false 8 = none := by
  decide

/-- C7: storing a pointer whose address fits in 48 bits and loading it back
returns the original address (the tag bits OR'd into the top 16 bits are
masked back off), and an address above 48 bits makes the store's assertion
fail fatally (modelled as `none`). -/
theorem c7_ptr_roundtrip :
    (∀ (t : RawTag) (addr : Nat), addr ≤ 0xFFFFFFFFFFFF →
      (Value.storePtr t addr).map load_ptr = some addr) ∧
    (∀ (t : RawTag) (addr : Nat), 0xFFFFFFFFFFFF < addr →
      Value.storePtr t addr = none) := by
  constructor
  · intro t addr ha
    unfold Value.storePtr store_ptr
    rw [if_pos ha]
    show some (load_ptr (Value.ofBits _)) = some addr
    unfold load_ptr
    rw [toBits_ofBits, land_mask48, lor_low_high _ _ (by omega)]
    congr 1
    omega
  · intro t addr ha
    unfold Value.storePtr store_ptr
    rw [if_neg (by omega)]

/-- Witness for C7 at tag N2, address 0x1234 (in range) and 2^48 (out of
range). -/
theorem c7_witness :
    (Value.storePtr ⟨.N2⟩ 0x1234).map load_ptr = some 0x1234 ∧
    Value.storePtr ⟨.N2⟩ 0x1000000000000 = none :=
  ⟨c7_ptr_roundtrip.1 ⟨.N2⟩ 0x1234 (by norm_num),
   c7_ptr_roundtrip.2 ⟨.N2⟩ 0x1000000000000 (by norm_num)⟩

/-- C8: for a RawBox word that tests as a float, `float_mut` always returns
`Some` (the canonical-NaN guard of `SingleNaNF64::from_mut` never fires for
it), and `from_mut` itself returns `None` exactly on NaNs other than the two
canonical patterns. -/
theorem c8_float_mut_sound :
    (∀ bits : Nat, RawBox.is_float bits = true → (RawBox.float_mut bits).isSome = true) ∧
    (∀ bits : Nat, bits < 0x10000000000000000 →
      (SingleNaNF64.from_mut bits = none ↔
        f64IsNan bits = true ∧ bits ≠ QUIET_NAN ∧ bits ≠ NEG_QUIET_NAN)) := by
  constructor
  · intro bits h
    have hv : RawBox.is_value bits = false := by
      have hc := is_float_eq_not_is_value bits
      rw [h] at hc
      simpa using hc.symm
    unfold RawBox.is_value at hv
    unfold RawBox.float_mut SingleNaNF64.from_mut
    rw [h, if_pos rfl, hv]
    rfl
  · intro bits hb
    have hiff : SingleNaNF64.from_mut bits = none ↔
        (f64IsNan bits && (Nat.land bits SIGN_MASK != QUIET_NAN)) = true := by
      unfold SingleNaNF64.from_mut
      cases h : (f64IsNan bits && (Nat.land bits SIGN_MASK != QUIET_NAN)) <;> simp [h]
    rw [hiff, Bool.and_eq_true, bne_iff_ne, land_sign_mask]
    constructor
    · rintro ⟨h1, h2⟩
      refine ⟨h1, ?_, ?_⟩ <;> simp only [QUIET_NAN, NEG_QUIET_NAN] at h2 ⊢ <;> omega
    · rintro ⟨h1, hq, hnq⟩
      refine ⟨h1, ?_⟩
      simp only [QUIET_NAN, NEG_QUIET_NAN] at hq hnq ⊢
      omega

/-- Witness for C8 at the bit pattern of 1.0 (a stored float) and at a
non-canonical NaN. -/
theorem c8_witness :
    (RawBox.float_mut 0x3FF0000000000000).isSome = true ∧
    (SingleNaNF64.from_mut 0x7FF0000000000001 = none ↔
      f64IsNan 0x7FF0000000000001 = true ∧ (0x7FF0000000000001 : Nat) ≠ QUIET_NAN ∧
      (0x7FF0000000000001 : Nat) ≠ NEG_QUIET_NAN) :=
  ⟨c8_float_mut_sound.1 0x3FF0000000000000 (by decide),
   c8_float_mut_sound.2 0x7FF0000000000001 (by norm_num)⟩

/-- C9: every bit pattern produced by `SingleNaNF64::new`, `write`, or any of
the `Add`/`Sub`/`Mul`/`Div` operators and their assign forms (each funnelling
an arbitrary `f64` operation result through `new`) is never a NaN other than
the two canonical patterns. -/
theorem c9_singlenan_invariant :
    (∀ f, canonNaNOnly (SingleNaNF64.new f)) ∧
    (∀ f, canonNaNOnly (SingleNaNF64.write f)) ∧
    (∀ g a b, canonNaNOnly (SingleNaNF64.add g a b)) ∧
    (∀ g a b, canonNaNOnly (SingleNaNF64.sub g a b)) ∧
    (∀ g a b, canonNaNOnly (SingleNaNF64.mul g a b)) ∧
    (∀ g a b, canonNaNOnly (SingleNaNF64.div g a b)) ∧
    (∀ g a b, canonNaNOnly (SingleNaNF64.add_assign g a b)) ∧
    (∀ g a b, canonNaNOnly (SingleNaNF64.sub_assign g a b)) ∧
    (∀ g a b, canonNaNOnly (SingleNaNF64.mul_assign g a b)) ∧
    (∀ g a b, canonNaNOnly (SingleNaNF64.div_assign g a b)) :=
  ⟨singlenan_new_canon, singlenan_new_canon,
   fun g a b => singlenan_new_canon (g a b), fun g a b => singlenan_new_canon (g a b),
   fun g a b => singlenan_new_canon (g a b), fun g a b => singlenan_new_canon (g a b),
   fun g a b => singlenan_new_canon (g a b), fun g a b => singlenan_new_canon (g a b),
   fun g a b => singlenan_new_canon (g a b), fun g a b => singlenan_new_canon (g a b)⟩

/-- Witness for C9: normalizing a non-canonical positive NaN yields one of
the two canonical patterns. -/
theorem c9_witness :
    SingleNaNF64.new 0x7FF0000000000001 = QUIET_NAN ∨
    SingleNaNF64.new 0x7FF0000000000001 = NEG_QUIET_NAN :=
  c9_singlenan_invariant.1 0x7FF0000000000001 (by decide)

/-- C10: writing any `RawStore` payload never alters the header, so the
stored tag reads back unchanged; on the pointer path (which rewrites the
whole word) the original header is re-OR'd into the top 16 bits. -/
theorem c10_store_preserves_tag (t : RawTag) :
    (∀ d : Nat, (Value.store array6ToVal t d).tag = some t) ∧
    (∀ b : Bool, (Value.store boolToVal t b).tag = some t) ∧
    (∀ x : Nat, (Value.store u8ToVal t x).tag = some t) ∧
    (∀ x : Nat, (Value.store u16ToVal t x).tag = some t) ∧
    (∀ x : Nat, (Value.store u32ToVal t x).tag = some t) ∧
    (∀ x : Int, (Value.store i8ToVal t x).tag = some t) ∧
    (∀ x : Int, (Value.store i16ToVal t x).tag = some t) ∧
    (∀ x : Int, (Value.store i32ToVal t x).tag = some t) ∧
    (∀ addr : Nat, addr ≤ 0xFFFFFFFFFFFF →
      (Value.storePtr t addr).map Value.tag = some (some t)) := by
  have hset : ∀ d : Nat, (Value.set_data (Value.new t 0) d).tag = some t := by
    intro d
    simp [Value.set_data, Value.new, Value.tag, header_tag_new]
  refine ⟨fun d => hset d, fun b => hset 1, fun x => hset x, fun x => hset x, fun x => hset x,
    fun x => hset (i8Bits x), fun x => hset (i16Bits x), fun x => hset (i32Bits x), ?_⟩
  intro addr ha
  unfold Value.storePtr store_ptr
  rw [if_pos ha]
  show some (Value.tag (Value.ofBits _)) = some (some t)
  have hw : (Nat.lor addr ((Value.new t 0).header.bits <<< 48)) >>> 48
      = (Header.new t).bits := by
    rw [lor_low_high _ _ (by omega), Nat.shiftRight_eq_div_pow]
    have h48 : (2 : Nat) ^ 48 = 0x1000000000000 := by norm_num
    rw [h48]
    simp only [Value.new]
    omega
  unfold Value.ofBits Value.tag
  rw [hw]
  exact congrArg some (header_tag_new t)

/-- Witness for C10 at tag P4, a boolean payload and pointer address 2. -/
theorem c10_witness :
    (Value.store boolToVal ⟨.P4⟩ true).tag = some ⟨.P4⟩ ∧
    (Value.storePtr ⟨.P4⟩ 2).map Value.tag = some (some ⟨.P4⟩) :=
  ⟨(c10_store_preserves_tag ⟨.P4⟩).2.1 true,
   (c10_store_preserves_tag ⟨.P4⟩).2.2.2.2.2.2.2.2 2 (by norm_num)⟩

end Boa
